import Mathlib

/-!
Verification of `samcli/lib/utils/subprocess_utils.py`.

We shallowly embed the module: the process launched by `Popen` is modelled
by an explicit behaviour record (exit code, stdout/stderr content, poll
count), the output sink and the logger by event traces, and the function
`invoke_subprocess_with_loading_pattern` by a pure function from the
command arguments and the environment behaviour to a result plus trace.

Python `bytes` objects are represented by the string they decode to under
UTF-8 (all inputs relevant to the specification are valid UTF-8 text), so
`decode("utf-8")` is the identity on the representation and Python
`str.strip()` becomes a character-level strip of leading and trailing
whitespace (we model the ASCII whitespace characters, which cover every
character appearing in the specification).
-/

namespace SubprocessUtils

/-- A single quote character, used when rendering Python list reprs. -/
def squote : String := String.singleton (Char.ofNat 39)

/-- The value of `os.linesep` on the POSIX platforms considered here. -/
def osLinesep : String := "\n"

/-- The value of `logging.INFO` in the Python standard library. -/
def loggingINFO : Nat := 20

/-- A value of Python type `AnyStr`: either a `bytes` object (represented
by its UTF-8 decoding) or an already-decoded `str`. -/
inductive AnyStrV where
  | bytes (s : String)
  | str (s : String)
deriving DecidableEq, Repr

/-- The whitespace characters stripped by Python `str.strip()` (the ASCII
part of the Unicode whitespace class; the non-ASCII part does not occur in
the behaviours considered here). -/
def isPyWhitespace (c : Char) : Bool :=
  c = ' ' || c = Char.ofNat 9 || c = Char.ofNat 10 || c = Char.ofNat 13
    || c = Char.ofNat 11 || c = Char.ofNat 12

/-- Python `str.strip()` with no arguments: remove leading and trailing
whitespace. -/
def pyStrip (s : String) : String :=
  ⟨((s.data.dropWhile isPyWhitespace).reverse.dropWhile isPyWhitespace).reverse⟩

/-- Embedding of `_check_and_process_bytes(check_value)`: if the value is
`bytes`, decode it as UTF-8 and `strip()` it; otherwise return it
unchanged. -/
def check_and_process_bytes : AnyStrV → String
  | .bytes s => pyStrip s
  | .str s => s

/-- A redirection value that can appear in `command_args` under
`"stdout"` or `"stderr"`: `subprocess.PIPE` (-1), `subprocess.DEVNULL`
(-3), `subprocess.STDOUT` (-2), or an open file descriptor. -/
inductive Redirect where
  | pipe
  | devnull
  | stdoutDest
  | fd (n : Nat)
deriving DecidableEq, Repr

/-- Python truthiness of `command_args.get("stdout")`: `None` (key absent
or set to `None`) is falsy, the integer `0` (file descriptor 0) is falsy,
every other redirection value is truthy. -/
def redirTruthy : Option Redirect → Bool
  | none => false
  | some (.fd 0) => false
  | some _ => true

/-- The keyword arguments handed to `Popen`. Entries other than `args`,
`stdout` and `stderr` are not inspected by the module and are kept as an
opaque association list. -/
structure CommandArgs where
  args : List String
  stdout : Option Redirect
  stderr : Option Redirect
  other : List (String × String)
deriving DecidableEq, Repr

/-- The first statement acting on `command_args`: default `stdout` to
`PIPE` when `command_args.get("stdout")` is falsy, mutating the
dictionary in place. -/
def withDefaultStdout (ca : CommandArgs) : CommandArgs :=
  if !redirTruthy ca.stdout then { ca with stdout := some Redirect.pipe } else ca

/-- An attached pipe stream of the child. The field `isBytes` records
whether the stream was opened in binary mode (the `Popen` default);
`lines` is the sequence of lines iteration over the stream would yield,
each typically carrying its line terminator. Reading the stream to
exhaustion returns their concatenation. -/
structure ProcStream where
  isBytes : Bool
  lines : List String
deriving DecidableEq, Repr

/-- The value a stream yields for one iterated line. -/
def lineVal (isBytes : Bool) (l : String) : AnyStrV :=
  if isBytes then .bytes l else .str l

/-- The value of `stream.read()` on the remaining content of a stream. -/
def streamReadAll (st : ProcStream) : AnyStrV :=
  lineVal st.isBytes (String.join st.lines)

/-- Embedding of `_check_and_convert_stream_to_string(stream)`: an absent
stream reads as the empty string; otherwise read the stream to exhaustion
and decode. -/
def check_and_convert_stream_to_string : Option ProcStream → String
  | none => ""
  | some st => check_and_process_bytes (streamReadAll st)

/-- Behaviour of one launched child process: how many times `poll()`
returns `None` before the child is seen as exited, what `wait()` does
(raise an `OSError`, modelled by its message, or return the exit code),
and the content each attached pipe would deliver. -/
structure ProcessBehavior where
  pollsUntilExit : Nat
  waitResult : Except String Int
  stdoutIsBytes : Bool
  stdoutLines : List String
  stderrIsBytes : Bool
  stderrLines : List String
deriving Repr

/-- The stream `process.stdout`: `Popen` attaches a readable stdout
stream exactly when the caller passed `stdout=PIPE`. -/
def procStdout (ca : CommandArgs) (p : ProcessBehavior) : Option ProcStream :=
  if ca.stdout = some .pipe then some ⟨p.stdoutIsBytes, p.stdoutLines⟩ else none

/-- The stream `process.stderr`: attached exactly when the caller passed
`stderr=PIPE`. -/
def procStderr (ca : CommandArgs) (p : ProcessBehavior) : Option ProcStream :=
  if ca.stderr = some .pipe then some ⟨p.stderrIsBytes, p.stderrLines⟩ else none

/-- What `Popen(**command_args)` does in a given environment: raise an
`OSError` or `ValueError` (modelled by its message) or produce a live
child. -/
inductive LaunchResult where
  | fail (errMsg : String)
  | ok (p : ProcessBehavior)
deriving Repr

/-- The environment of one call: the behaviour `Popen` exhibits for this
invocation and the ambient `LOG.getEffectiveLevel()`. -/
structure World where
  launch : LaunchResult
  logLevel : Nat
deriving Repr

/-- An action a loading-pattern callback can perform on its stream
writer: write a string or flush. -/
inductive SinkEvent where
  | write (s : String)
  | flush
deriving DecidableEq, Repr

/-- An observable event of one call: a write or flush on the output sink,
a debug-level log record, or the release of the process handle performed
by the `with` block on scope exit. -/
inductive Event where
  | sinkWrite (s : String)
  | sinkFlush
  | logDebug (s : String)
  | closeProcess
deriving DecidableEq, Repr

/-- Lifting of a callback sink action into the call trace. -/
def SinkEvent.toEvent : SinkEvent → Event
  | .write s => .sinkWrite s
  | .flush => .sinkFlush

/-- The sink actions one invocation of `default_loading_pattern`
performs: write a single dot and flush (the sleep has no observable
effect on the trace). -/
def default_loading_pattern : List SinkEvent := [.write ".", .flush]

/-- The Python repr of a list of strings, as interpolated into f-strings:
a bracket, the single-quoted elements joined by comma-space, a closing
bracket. -/
def pyReprStrList (xs : List String) : String :=
  "[" ++ String.intercalate ", " (xs.map fun s => squote ++ s ++ squote) ++ "]"

/-- The message carried by `LoadingPatternError(ex)`. The trailing
`message_fmt.format(ex=...)` in the constructor is the identity on
messages containing no brace, which all messages built by this module
are. -/
def loadingPatternErrorMessage (ex : String) : String :=
  "Failed to execute the subprocess. " ++ ex

/-- The argument of the `LoadingPatternError` raised on a non-zero exit
code. -/
def nonZeroExitMessage (args : List String) (returncode : Int)
    (process_stderr : String) : String :=
  "The process " ++ pyReprStrList args ++ " returned a non-zero exit code "
    ++ toString returncode ++ ". " ++ process_stderr

/-- The argument of the `LoadingPatternError` raised when `Popen` or
`wait` raises an `OSError` or `ValueError` with message `e`. -/
def executionFailedMessage (args : List String) (e : String) : String :=
  "Subprocess execution failed " ++ pyReprStrList args ++ ". " ++ e

/-- The outcome of one call: the returned output or the message of the
raised `LoadingPatternError`, the full event trace, and the state of the
caller's `command_args` dictionary after the call (the function mutates
the dictionary it was given in place). -/
structure RunOutcome where
  result : Except String String
  events : List Event
  finalArgs : CommandArgs
deriving Repr

/-- The trace of the observation loop. Indicator mode (level at least
INFO) invokes the pattern callback once for each poll that returns None;
streaming mode emits one debug log record per decoded line of an
attached stdout stream, and nothing when no stream is attached. -/
def loopTrace (loading_pattern : List SinkEvent) (logLevel : Nat)
    (stdoutStream : Option ProcStream) (p : ProcessBehavior) : List Event :=
  if loggingINFO ≤ logLevel then
    (List.replicate p.pollsUntilExit (loading_pattern.map SinkEvent.toEvent)).flatten
  else
    match stdoutStream with
    | some st => st.lines.map fun l => Event.logDebug (check_and_process_bytes (lineVal st.isBytes l))
    | none => []

/-- The `process_output` accumulated by the observation loop: empty in
indicator mode, the concatenation of the decoded lines in streaming
mode. -/
def loopOutput (logLevel : Nat) (stdoutStream : Option ProcStream) : String :=
  if loggingINFO ≤ logLevel then ""
  else
    match stdoutStream with
    | some st => String.join (st.lines.map fun l => check_and_process_bytes (lineVal st.isBytes l))
    | none => ""

/-- The stdout stream as it stands after the observation loop: untouched
in indicator mode, exhausted when the streaming loop consumed it. -/
def stdoutAfterLoop (logLevel : Nat) (stdoutStream : Option ProcStream) :
    Option ProcStream :=
  if loggingINFO ≤ logLevel then stdoutStream
  else
    match stdoutStream with
    | some st => some ⟨st.isBytes, []⟩
    | none => stdoutStream

/-- Embedding of `invoke_subprocess_with_loading_pattern(command_args,
loading_pattern, stream_writer)`. The sink defaulting is absorbed into
the trace; `loading_pattern` is the list of sink actions one invocation
of the callback performs. A `LoadingPatternError` raised on a non-zero
exit is a `UserException`, which the `except (OSError, ValueError)`
clause does not catch; the `with` block closes the process handle on
every path on which a handle exists. -/
def invoke_subprocess_with_loading_pattern (command_args : CommandArgs)
    (loading_pattern : List SinkEvent) (w : World) : RunOutcome :=
  let ca := withDefaultStdout command_args
  match w.launch with
  | .fail e =>
      { result := .error (loadingPatternErrorMessage (executionFailedMessage ca.args e)),
        events := [],
        finalArgs := ca }
  | .ok p =>
      let stdoutStream := procStdout ca p
      let loopEvents := loopTrace loading_pattern w.logLevel stdoutStream p
      match p.waitResult with
      | .error e =>
          { result := .error (loadingPatternErrorMessage (executionFailedMessage ca.args e)),
            events := loopEvents ++ [.closeProcess],
            finalArgs := ca }
      | .ok return_code =>
          let lo := loopOutput w.logLevel stdoutStream
          let process_output :=
            if lo = "" then
              check_and_convert_stream_to_string (stdoutAfterLoop w.logLevel stdoutStream)
            else lo
          let process_stderr := check_and_convert_stream_to_string (procStderr ca p)
          if return_code ≠ 0 then
            { result := .error (loadingPatternErrorMessage
                (nonZeroExitMessage ca.args return_code process_stderr)),
              events := loopEvents ++ [.sinkWrite osLinesep, .sinkFlush, .closeProcess],
              finalArgs := ca }
          else
            { result := .ok process_output,
              events := loopEvents ++ [.sinkWrite osLinesep, .sinkFlush, .closeProcess],
              finalArgs := ca }

/-- Spelled out from the specification (not from the source), for
comparison: trimming only trailing whitespace. -/
def specStripTrailing (s : String) : String :=
  ⟨(s.data.reverse.dropWhile isPyWhitespace).reverse⟩

/-- Substring containment: `sub` occurs contiguously in `s`. -/
def strContains (s sub : String) : Prop := List.IsInfix sub.data s.data

end SubprocessUtils

namespace SubprocessUtils

/-! General lemmas about the embedding, shared by the claim theorems. -/

theorem strContains_self (s : String) : strContains s s := ⟨[], [], by simp⟩

theorem strContains_append_right (s t sub : String) (h : strContains t sub) :
    strContains (s ++ t) sub := by
  obtain ⟨a, b, hab⟩ := h
  exact ⟨s.data ++ a, b, by simp [String.data_append, ← hab]⟩

theorem strContains_append_left (s t sub : String) (h : strContains s sub) :
    strContains (s ++ t) sub := by
  obtain ⟨a, b, hab⟩ := h
  exact ⟨a, b ++ t.data, by simp [String.data_append, ← hab]⟩

theorem withDefaultStdout_args (ca : CommandArgs) :
    (withDefaultStdout ca).args = ca.args := by
  unfold withDefaultStdout; split <;> rfl

theorem withDefaultStdout_stderr (ca : CommandArgs) :
    (withDefaultStdout ca).stderr = ca.stderr := by
  unfold withDefaultStdout; split <;> rfl

theorem withDefaultStdout_other (ca : CommandArgs) :
    (withDefaultStdout ca).other = ca.other := by
  unfold withDefaultStdout; split <;> rfl

theorem withDefaultStdout_stdout (ca : CommandArgs) :
    (withDefaultStdout ca).stdout
      = if redirTruthy ca.stdout then ca.stdout else some Redirect.pipe := by
  unfold withDefaultStdout
  by_cases h : redirTruthy ca.stdout <;> simp [h]

theorem procStderr_withDefaultStdout (ca : CommandArgs) (p : ProcessBehavior) :
    procStderr (withDefaultStdout ca) p = procStderr ca p := by
  unfold procStderr
  rw [withDefaultStdout_stderr]

theorem finalArgs_eq (ca : CommandArgs) (pat : List SinkEvent) (w : World) :
    (invoke_subprocess_with_loading_pattern ca pat w).finalArgs
      = withDefaultStdout ca := by
  unfold invoke_subprocess_with_loading_pattern
  cases w.launch with
  | fail e => rfl
  | ok p =>
    cases hw : p.waitResult with
    | error e => simp [hw]
    | ok rc =>
      simp only [hw]
      by_cases h : rc ≠ 0 <;> simp [h]

theorem result_nonzero (ca : CommandArgs) (pat : List SinkEvent) (p : ProcessBehavior)
    (lvl : Nat) (N : Int) (hw : p.waitResult = .ok N) (hN : N ≠ 0) :
    (invoke_subprocess_with_loading_pattern ca pat ⟨.ok p, lvl⟩).result
      = .error (loadingPatternErrorMessage
          (nonZeroExitMessage (withDefaultStdout ca).args N
            (check_and_convert_stream_to_string (procStderr (withDefaultStdout ca) p)))) := by
  unfold invoke_subprocess_with_loading_pattern
  simp [hw, hN]

theorem result_launch_fail (ca : CommandArgs) (pat : List SinkEvent) (lvl : Nat)
    (e : String) :
    (invoke_subprocess_with_loading_pattern ca pat ⟨.fail e, lvl⟩).result
      = .error (loadingPatternErrorMessage
          (executionFailedMessage (withDefaultStdout ca).args e)) := by
  rfl

theorem result_wait_fail (ca : CommandArgs) (pat : List SinkEvent) (p : ProcessBehavior)
    (lvl : Nat) (e : String) (hw : p.waitResult = .error e) :
    (invoke_subprocess_with_loading_pattern ca pat ⟨.ok p, lvl⟩).result
      = .error (loadingPatternErrorMessage
          (executionFailedMessage (withDefaultStdout ca).args e)) := by
  unfold invoke_subprocess_with_loading_pattern
  simp [hw]

theorem events_wait_ok (ca : CommandArgs) (pat : List SinkEvent) (p : ProcessBehavior)
    (lvl : Nat) (rc : Int) (hw : p.waitResult = .ok rc) :
    (invoke_subprocess_with_loading_pattern ca pat ⟨.ok p, lvl⟩).events
      = loopTrace pat lvl (procStdout (withDefaultStdout ca) p) p
          ++ [.sinkWrite osLinesep, .sinkFlush, .closeProcess] := by
  unfold invoke_subprocess_with_loading_pattern
  simp only [hw]
  by_cases h : rc ≠ 0 <;> simp [h]

theorem events_wait_fail (ca : CommandArgs) (pat : List SinkEvent) (p : ProcessBehavior)
    (lvl : Nat) (e : String) (hw : p.waitResult = .error e) :
    (invoke_subprocess_with_loading_pattern ca pat ⟨.ok p, lvl⟩).events
      = loopTrace pat lvl (procStdout (withDefaultStdout ca) p) p ++ [.closeProcess] := by
  unfold invoke_subprocess_with_loading_pattern
  simp [hw]

theorem loopTrace_events (pat : List SinkEvent) (lvl : Nat) (st : Option ProcStream)
    (p : ProcessBehavior) (e : Event) (he : e ∈ loopTrace pat lvl st p) :
    (∃ a ∈ pat, e = a.toEvent) ∨ ∃ s, e = .logDebug s := by
  unfold loopTrace at he
  split at he
  · simp only [List.mem_flatten] at he
    obtain ⟨l, hl, hel⟩ := he
    have := List.eq_of_mem_replicate hl
    subst this
    simp only [List.mem_map] at hel
    obtain ⟨a, ha, rfl⟩ := hel
    exact .inl ⟨a, ha, rfl⟩
  · split at he
    · simp only [List.mem_map] at he
      obtain ⟨l, _, rfl⟩ := he
      exact .inr ⟨_, rfl⟩
    · simp at he

theorem loopTrace_count_close (pat : List SinkEvent) (lvl : Nat) (st : Option ProcStream)
    (p : ProcessBehavior) :
    (loopTrace pat lvl st p).count Event.closeProcess = 0 := by
  rw [List.count_eq_zero]
  intro hmem
  rcases loopTrace_events pat lvl st p _ hmem with ⟨a, _, ha⟩ | ⟨s, hs⟩
  · cases a <;> simp [SinkEvent.toEvent] at ha
  · simp at hs

theorem loopTrace_count_linesep (lvl : Nat) (st : Option ProcStream)
    (p : ProcessBehavior) :
    (loopTrace default_loading_pattern lvl st p).count (Event.sinkWrite osLinesep) = 0 := by
  rw [List.count_eq_zero]
  intro hmem
  rcases loopTrace_events default_loading_pattern lvl st p _ hmem with ⟨a, ha, hae⟩ | ⟨s, hs⟩
  · simp only [default_loading_pattern, List.mem_cons, List.mem_singleton] at ha
    rcases ha with rfl | rfl | h
    · simp [SinkEvent.toEvent, osLinesep] at hae
    · simp [SinkEvent.toEvent] at hae
    · simp at h
  · simp at hs

end SubprocessUtils

namespace SubprocessUtils

/-- C1 counterexample: a child that exits 0 after writing " hi" (leading
space) to the default stdout pipe makes the call return "hi", which is
not " hi", the input with only its trailing whitespace trimmed: the code
strips leading whitespace as well. Moreover, at debug verbosity a child
writing "a \nb\n" makes the call return "ab", the concatenation of the
per-line strips, which matches neither the trailing-trimmed input nor
its full strip, so the claim also fails outside indicator mode. -/
theorem C1_counterexample :
    (invoke_subprocess_with_loading_pattern ⟨["cmd"], none, none, []⟩
        default_loading_pattern
        ⟨.ok ⟨1, .ok 0, true, [" hi"], true, []⟩, loggingINFO⟩).result = .ok "hi"
    ∧ "hi" ≠ specStripTrailing " hi"
    ∧ (invoke_subprocess_with_loading_pattern ⟨["cmd"], none, none, []⟩
        default_loading_pattern
        ⟨.ok ⟨0, .ok 0, true, ["a \n", "b\n"], true, []⟩, 10⟩).result = .ok "ab"
    ∧ "ab" ≠ specStripTrailing ("a \n" ++ "b\n")
    ∧ "ab" ≠ pyStrip ("a \n" ++ "b\n") := by
  refine ⟨rfl, by decide, rfl, by decide, by decide⟩

/-- C1 (amended): in indicator mode, for every child that exits 0 having
written text T to the default stdout pipe, the call returns T with
leading and trailing whitespace stripped. -/
theorem C1_returns_stripped_output (argv : List String) (se : Option Redirect)
    (oth : List (String × String)) (pat : List SinkEvent)
    (polls : Nat) (T : String) (eb : Bool) (el : List String) (lvl : Nat)
    (hlvl : loggingINFO ≤ lvl) :
    (invoke_subprocess_with_loading_pattern ⟨argv, none, se, oth⟩ pat
      ⟨.ok ⟨polls, .ok 0, true, [T], eb, el⟩, lvl⟩).result = .ok (pyStrip T) := by
  unfold invoke_subprocess_with_loading_pattern
  simp [withDefaultStdout, redirTruthy, procStdout, loopOutput, stdoutAfterLoop, hlvl,
    check_and_convert_stream_to_string, streamReadAll, lineVal, check_and_process_bytes,
    String.join]

/-- Witness for C1: the child writes " hi " and exits 0 at level INFO;
the call returns "hi". -/
theorem C1_returns_stripped_output_witness :
    loggingINFO ≤ 20
    ∧ (invoke_subprocess_with_loading_pattern ⟨["echo", "hi"], none, none, []⟩
        default_loading_pattern
        ⟨.ok ⟨1, .ok 0, true, [" hi "], true, []⟩, 20⟩).result = .ok (pyStrip " hi ") :=
  ⟨by decide,
   C1_returns_stripped_output ["echo", "hi"] none [] default_loading_pattern
     1 " hi " true [] 20 (by decide)⟩

end SubprocessUtils

namespace SubprocessUtils

/-- C2: whenever wait reports a non-zero exit code N, the call raises a
LoadingPatternError whose message contains the repr of the argument
vector, the code N, and the captured stderr text, and never returns an
output string. -/
theorem C2_nonzero_exit_error (ca : CommandArgs) (pat : List SinkEvent)
    (p : ProcessBehavior) (lvl : Nat) (N : Int)
    (hw : p.waitResult = .ok N) (hN : N ≠ 0) :
    ∃ msg,
      (invoke_subprocess_with_loading_pattern ca pat ⟨.ok p, lvl⟩).result = .error msg
      ∧ strContains msg (pyReprStrList ca.args)
      ∧ strContains msg (toString N)
      ∧ strContains msg (check_and_convert_stream_to_string (procStderr ca p))
      ∧ ∀ out,
          (invoke_subprocess_with_loading_pattern ca pat ⟨.ok p, lvl⟩).result ≠ .ok out := by
  have hres := result_nonzero ca pat p lvl N hw hN
  rw [withDefaultStdout_args, procStderr_withDefaultStdout] at hres
  refine ⟨_, hres, ?_, ?_, ?_, ?_⟩
  · unfold loadingPatternErrorMessage nonZeroExitMessage
    apply strContains_append_right
    apply strContains_append_left
    apply strContains_append_left
    apply strContains_append_left
    apply strContains_append_left
    apply strContains_append_right
    exact strContains_self _
  · unfold loadingPatternErrorMessage nonZeroExitMessage
    apply strContains_append_right
    apply strContains_append_left
    apply strContains_append_left
    apply strContains_append_right
    exact strContains_self _
  · unfold loadingPatternErrorMessage nonZeroExitMessage
    apply strContains_append_right
    apply strContains_append_right
    exact strContains_self _
  · intro out
    rw [hres]
    simp

/-- Witness for C2: running ["false"] with stderr piped, exit code 1 and
stderr text "boom\n". -/
theorem C2_nonzero_exit_error_witness :
    ∃ msg,
      (invoke_subprocess_with_loading_pattern ⟨["false"], none, some .pipe, []⟩
        default_loading_pattern
        ⟨.ok ⟨1, .ok 1, true, [], true, ["boom\n"]⟩, 20⟩).result = .error msg
      ∧ strContains msg (pyReprStrList ["false"])
      ∧ strContains msg (toString (1 : Int))
      ∧ strContains msg (check_and_convert_stream_to_string
          (procStderr ⟨["false"], none, some .pipe, []⟩ ⟨1, .ok 1, true, [], true, ["boom\n"]⟩))
      ∧ ∀ out,
          (invoke_subprocess_with_loading_pattern ⟨["false"], none, some .pipe, []⟩
            default_loading_pattern
            ⟨.ok ⟨1, .ok 1, true, [], true, ["boom\n"]⟩, 20⟩).result ≠ .ok out :=
  C2_nonzero_exit_error ⟨["false"], none, some .pipe, []⟩ default_loading_pattern
    ⟨1, .ok 1, true, [], true, ["boom\n"]⟩ 20 1 rfl (by decide)

end SubprocessUtils

namespace SubprocessUtils

/-- C3 counterexample: the helper passes already-decoded text through
without the stripping the claim describes ("hello " stays "hello "), and
on bytes it strips leading whitespace too (bytes " hello" yield "hello",
not the trailing-only strip " hello"). -/
theorem C3_counterexample :
    check_and_process_bytes (.str "hello ") = "hello "
    ∧ "hello " ≠ pyStrip "hello "
    ∧ check_and_process_bytes (.bytes " hello") = "hello"
    ∧ "hello" ≠ specStripTrailing " hello" := by
  refine ⟨rfl, by decide, by decide, by decide⟩

/-- C3 (amended): the helper decodes bytes as UTF-8 and strips leading
and trailing whitespace; already-decoded text is passed through entirely
unchanged. In particular bytes of "hello \n" yield "hello" and the text
"hello" stays "hello". -/
theorem C3_decoding_helper (b t : String) :
    check_and_process_bytes (.bytes b) = pyStrip b
    ∧ check_and_process_bytes (.str t) = t
    ∧ check_and_process_bytes (.bytes "hello \n") = "hello"
    ∧ check_and_process_bytes (.str "hello") = "hello" :=
  ⟨rfl, rfl, by decide, rfl⟩

/-- C4: if Popen raises an OS-level error, or wait does, the call raises
a LoadingPatternError whose message contains the underlying error text
and the repr of the argument vector, and never returns normally. -/
theorem C4_launch_or_wait_failure (ca : CommandArgs) (pat : List SinkEvent)
    (w : World) (e : String)
    (h : w.launch = .fail e ∨ ∃ p, w.launch = .ok p ∧ p.waitResult = .error e) :
    ∃ msg,
      (invoke_subprocess_with_loading_pattern ca pat w).result = .error msg
      ∧ strContains msg e
      ∧ strContains msg (pyReprStrList ca.args)
      ∧ ∀ out, (invoke_subprocess_with_loading_pattern ca pat w).result ≠ .ok out := by
  obtain ⟨l, lvl⟩ := w
  have hres : (invoke_subprocess_with_loading_pattern ca pat ⟨l, lvl⟩).result
      = .error (loadingPatternErrorMessage
          (executionFailedMessage (withDefaultStdout ca).args e)) := by
    rcases h with h | ⟨p, hp, hwait⟩
    · simp only at h
      subst h
      exact result_launch_fail ca pat lvl e
    · simp only at hp
      subst hp
      exact result_wait_fail ca pat p lvl e hwait
  rw [withDefaultStdout_args] at hres
  refine ⟨_, hres, ?_, ?_, ?_⟩
  · unfold loadingPatternErrorMessage executionFailedMessage
    apply strContains_append_right
    apply strContains_append_right
    exact strContains_self _
  · unfold loadingPatternErrorMessage executionFailedMessage
    apply strContains_append_right
    apply strContains_append_left
    apply strContains_append_left
    apply strContains_append_right
    exact strContains_self _
  · intro out
    rw [hres]
    simp

/-- Witness for C4: launching a nonexistent binary fails with a wrapped
launch error. -/
theorem C4_launch_or_wait_failure_witness :
    ∃ msg,
      (invoke_subprocess_with_loading_pattern ⟨["nonexistent-binary-xyz"], none, none, []⟩
        default_loading_pattern
        ⟨.fail "No such file or directory", 20⟩).result = .error msg
      ∧ strContains msg "No such file or directory"
      ∧ strContains msg (pyReprStrList ["nonexistent-binary-xyz"])
      ∧ ∀ out,
          (invoke_subprocess_with_loading_pattern
            ⟨["nonexistent-binary-xyz"], none, none, []⟩
            default_loading_pattern
            ⟨.fail "No such file or directory", 20⟩).result ≠ .ok out :=
  C4_launch_or_wait_failure ⟨["nonexistent-binary-xyz"], none, none, []⟩
    default_loading_pattern ⟨.fail "No such file or directory", 20⟩
    "No such file or directory" (Or.inl rfl)

end SubprocessUtils

namespace SubprocessUtils

/-- C5 counterexample: a caller that specifies file descriptor 0 as the
stdout destination (a falsy but explicit value) has it replaced by PIPE,
so a specified destination is not always launched unchanged. -/
theorem C5_counterexample :
    (invoke_subprocess_with_loading_pattern ⟨["x"], some (.fd 0), none, []⟩
        default_loading_pattern
        ⟨.ok ⟨0, .ok 0, true, [], true, []⟩, loggingINFO⟩).finalArgs.stdout
      = some Redirect.pipe
    ∧ some (Redirect.fd 0) ≠ some Redirect.pipe := by
  constructor
  · rfl
  · decide

/-- C5 (amended): a falsy stdout entry (unset, None, or file descriptor
0) is forced to PIPE before launch; a truthy stdout destination is
launched unchanged; no other entry of the request is touched. -/
theorem C5_stdout_defaulting (ca : CommandArgs) (pat : List SinkEvent) (w : World) :
    (invoke_subprocess_with_loading_pattern ca pat w).finalArgs.stdout
      = (if redirTruthy ca.stdout then ca.stdout else some Redirect.pipe)
    ∧ (invoke_subprocess_with_loading_pattern ca pat w).finalArgs.args = ca.args
    ∧ (invoke_subprocess_with_loading_pattern ca pat w).finalArgs.stderr = ca.stderr
    ∧ (invoke_subprocess_with_loading_pattern ca pat w).finalArgs.other = ca.other := by
  rw [finalArgs_eq]
  exact ⟨withDefaultStdout_stdout ca, withDefaultStdout_args ca,
    withDefaultStdout_stderr ca, withDefaultStdout_other ca⟩

/-- C6 counterexample: in streaming mode a line arriving as bytes is
stripped while the same line arriving as text is appended unchanged, so
the two runs return different output. -/
theorem C6_counterexample :
    (invoke_subprocess_with_loading_pattern ⟨["worker"], none, none, []⟩
        default_loading_pattern
        ⟨.ok ⟨0, .ok 0, true, ["hi \n"], true, []⟩, 10⟩).result = .ok "hi"
    ∧ (invoke_subprocess_with_loading_pattern ⟨["worker"], none, none, []⟩
        default_loading_pattern
        ⟨.ok ⟨0, .ok 0, false, ["hi \n"], true, []⟩, 10⟩).result = .ok "hi \n"
    ∧ ("hi" : String) ≠ "hi \n" := by
  refine ⟨rfl, rfl, by decide⟩

/-- C6 (amended): in streaming mode, for a child that prints lines
L1..Ln to the default stdout pipe and exits 0, the returned output is
the in-order concatenation of the lines each passed through the decoding
helper: a line arriving as bytes is decoded and stripped, a line
arriving as text is appended unchanged. -/
theorem C6_streaming_concatenates_lines (argv : List String) (se : Option Redirect)
    (oth : List (String × String)) (pat : List SinkEvent)
    (polls : Nat) (isB : Bool) (lines : List String) (eb : Bool) (el : List String)
    (lvl : Nat) (hlvl : lvl < loggingINFO) :
    (invoke_subprocess_with_loading_pattern ⟨argv, none, se, oth⟩ pat
      ⟨.ok ⟨polls, .ok 0, isB, lines, eb, el⟩, lvl⟩).result
      = .ok (String.join (lines.map fun l => check_and_process_bytes (lineVal isB l))) := by
  unfold invoke_subprocess_with_loading_pattern
  have hnl : ¬ loggingINFO ≤ lvl := by omega
  by_cases hz : String.join (lines.map fun l => check_and_process_bytes (lineVal isB l)) = ""
  · simp [withDefaultStdout, redirTruthy, procStdout, loopOutput, stdoutAfterLoop, hnl, hz,
      check_and_convert_stream_to_string, streamReadAll, lineVal, check_and_process_bytes,
      pyStrip, String.join]
    cases isB
    · intro h; exact h.symm
    · intro h; rw [h]; decide
  · simp [withDefaultStdout, redirTruthy, procStdout, loopOutput, stdoutAfterLoop, hnl, hz]

/-- Witness for C6: streaming two byte lines "a \n" and "b\n" at debug
level returns "ab". -/
theorem C6_streaming_concatenates_lines_witness :
    10 < loggingINFO
    ∧ (invoke_subprocess_with_loading_pattern ⟨["worker"], none, none, []⟩
        default_loading_pattern
        ⟨.ok ⟨0, .ok 0, true, ["a \n", "b\n"], true, []⟩, 10⟩).result
      = .ok (String.join (["a \n", "b\n"].map fun l => check_and_process_bytes (lineVal true l))) :=
  ⟨by decide,
   C6_streaming_concatenates_lines ["worker"] none [] default_loading_pattern
     0 true ["a \n", "b\n"] true [] 10 (by decide)⟩

end SubprocessUtils

namespace SubprocessUtils

/-- C7: on every run whose child was launched and waited on (either
observation mode, any exit code), the trace written with the default
loading pattern contains exactly one line-separator write on the sink,
immediately followed by a flush; the trace, and with it the separator,
is produced before the non-zero-exit error is raised. -/
theorem C7_single_line_separator (ca : CommandArgs) (p : ProcessBehavior)
    (lvl : Nat) (rc : Int) (hw : p.waitResult = .ok rc) :
    (invoke_subprocess_with_loading_pattern ca default_loading_pattern
        ⟨.ok p, lvl⟩).events.count (Event.sinkWrite osLinesep) = 1
    ∧ ∃ k,
        (invoke_subprocess_with_loading_pattern ca default_loading_pattern
          ⟨.ok p, lvl⟩).events[k]? = some (Event.sinkWrite osLinesep)
        ∧ (invoke_subprocess_with_loading_pattern ca default_loading_pattern
          ⟨.ok p, lvl⟩).events[k+1]? = some Event.sinkFlush := by
  rw [events_wait_ok ca default_loading_pattern p lvl rc hw]
  constructor
  · rw [List.count_append, loopTrace_count_linesep]
    decide
  · refine ⟨(loopTrace default_loading_pattern lvl
      (procStdout (withDefaultStdout ca) p) p).length, ?_, ?_⟩
    · rw [List.getElem?_append_right (Nat.le_refl _)]
      simp
    · rw [List.getElem?_append_right (Nat.le_succ_of_le (Nat.le_refl _))]
      simp

/-- Witness for C7: a two-poll child exiting 0 yields a trace with one
line separator. -/
theorem C7_single_line_separator_witness :
    (invoke_subprocess_with_loading_pattern ⟨["echo", "hi"], none, none, []⟩
        default_loading_pattern
        ⟨.ok ⟨2, .ok 0, true, ["hi\n"], true, []⟩, 20⟩).events.count
        (Event.sinkWrite osLinesep) = 1
    ∧ ∃ k,
        (invoke_subprocess_with_loading_pattern ⟨["echo", "hi"], none, none, []⟩
          default_loading_pattern
          ⟨.ok ⟨2, .ok 0, true, ["hi\n"], true, []⟩, 20⟩).events[k]?
          = some (Event.sinkWrite osLinesep)
        ∧ (invoke_subprocess_with_loading_pattern ⟨["echo", "hi"], none, none, []⟩
          default_loading_pattern
          ⟨.ok ⟨2, .ok 0, true, ["hi\n"], true, []⟩, 20⟩).events[k+1]?
          = some Event.sinkFlush :=
  C7_single_line_separator ⟨["echo", "hi"], none, none, []⟩
    ⟨2, .ok 0, true, ["hi\n"], true, []⟩ 20 0 rfl

/-- C8: on every run in which a process handle was acquired the trace
contains exactly one handle release, whether wait succeeded or raised
and whatever the exit code; a failed launch acquires no handle and so
releases none. -/
theorem C8_handle_released_once (ca : CommandArgs) (pat : List SinkEvent)
    (p : ProcessBehavior) (lvl : Nat) (e : String) :
    (invoke_subprocess_with_loading_pattern ca pat
        ⟨.ok p, lvl⟩).events.count Event.closeProcess = 1
    ∧ (invoke_subprocess_with_loading_pattern ca pat
        ⟨.fail e, lvl⟩).events.count Event.closeProcess = 0 := by
  constructor
  · cases hw : p.waitResult with
    | error err =>
      rw [events_wait_fail ca pat p lvl err hw, List.count_append, loopTrace_count_close]
      decide
    | ok rc =>
      rw [events_wait_ok ca pat p lvl rc hw, List.count_append, loopTrace_count_close]
      decide
  · rfl

end SubprocessUtils

namespace SubprocessUtils

/-- C9: when the stdout entry of the request is unset or falsy, the call
mutates the caller's dictionary: afterwards its stdout entry is PIPE and
so differs from the original, while args, stderr and the remaining
entries are unchanged. -/
theorem C9_request_mutated_in_place (ca : CommandArgs) (pat : List SinkEvent)
    (w : World) (h : redirTruthy ca.stdout = false) :
    (invoke_subprocess_with_loading_pattern ca pat w).finalArgs.stdout = some Redirect.pipe
    ∧ (invoke_subprocess_with_loading_pattern ca pat w).finalArgs.stdout ≠ ca.stdout
    ∧ (invoke_subprocess_with_loading_pattern ca pat w).finalArgs.args = ca.args
    ∧ (invoke_subprocess_with_loading_pattern ca pat w).finalArgs.stderr = ca.stderr
    ∧ (invoke_subprocess_with_loading_pattern ca pat w).finalArgs.other = ca.other := by
  rw [finalArgs_eq]
  have hstdout : (withDefaultStdout ca).stdout = some Redirect.pipe := by
    rw [withDefaultStdout_stdout, h]
    simp
  refine ⟨hstdout, ?_, withDefaultStdout_args ca, withDefaultStdout_stderr ca,
    withDefaultStdout_other ca⟩
  rw [hstdout]
  intro heq
  rw [← heq] at h
  simp [redirTruthy] at h

/-- Witness for C9: a request with no stdout entry ends up with stdout
set to PIPE and the other entries intact. -/
theorem C9_request_mutated_in_place_witness :
    redirTruthy (none : Option Redirect) = false
    ∧ ((invoke_subprocess_with_loading_pattern ⟨["ls"], none, some .pipe, [("cwd", "/tmp")]⟩
        default_loading_pattern
        ⟨.ok ⟨1, .ok 0, true, [], true, []⟩, 20⟩).finalArgs.stdout = some Redirect.pipe
    ∧ (invoke_subprocess_with_loading_pattern ⟨["ls"], none, some .pipe, [("cwd", "/tmp")]⟩
        default_loading_pattern
        ⟨.ok ⟨1, .ok 0, true, [], true, []⟩, 20⟩).finalArgs.stdout ≠ none
    ∧ (invoke_subprocess_with_loading_pattern ⟨["ls"], none, some .pipe, [("cwd", "/tmp")]⟩
        default_loading_pattern
        ⟨.ok ⟨1, .ok 0, true, [], true, []⟩, 20⟩).finalArgs.args = ["ls"]
    ∧ (invoke_subprocess_with_loading_pattern ⟨["ls"], none, some .pipe, [("cwd", "/tmp")]⟩
        default_loading_pattern
        ⟨.ok ⟨1, .ok 0, true, [], true, []⟩, 20⟩).finalArgs.stderr = some .pipe
    ∧ (invoke_subprocess_with_loading_pattern ⟨["ls"], none, some .pipe, [("cwd", "/tmp")]⟩
        default_loading_pattern
        ⟨.ok ⟨1, .ok 0, true, [], true, []⟩, 20⟩).finalArgs.other = [("cwd", "/tmp")]) :=
  ⟨by decide,
   C9_request_mutated_in_place ⟨["ls"], none, some .pipe, [("cwd", "/tmp")]⟩
     default_loading_pattern ⟨.ok ⟨1, .ok 0, true, [], true, []⟩, 20⟩ (by decide)⟩

/-- C10: when the caller did not set stderr to PIPE, no stderr stream is
attached, the stderr capture is empty, and the non-zero-exit error
message is built with an empty stderr component. -/
theorem C10_stderr_text_requires_pipe (ca : CommandArgs) (pat : List SinkEvent)
    (p : ProcessBehavior) (lvl : Nat) (N : Int)
    (hs : ca.stderr ≠ some Redirect.pipe)
    (hw : p.waitResult = .ok N) (hN : N ≠ 0) :
    procStderr ca p = none
    ∧ check_and_convert_stream_to_string (procStderr ca p) = ""
    ∧ (invoke_subprocess_with_loading_pattern ca pat ⟨.ok p, lvl⟩).result
        = .error (loadingPatternErrorMessage (nonZeroExitMessage ca.args N "")) := by
  have hnone : procStderr ca p = none := by
    unfold procStderr
    simp [hs]
  have hres := result_nonzero ca pat p lvl N hw hN
  rw [withDefaultStdout_args, procStderr_withDefaultStdout, hnone] at hres
  rw [hnone]
  exact ⟨rfl, rfl, hres⟩

/-- Witness for C10: exit code 2 with stderr left at its default; the
message carries an empty stderr component. -/
theorem C10_stderr_text_requires_pipe_witness :
    ((⟨["false"], none, none, []⟩ : CommandArgs).stderr ≠ some Redirect.pipe)
    ∧ (procStderr ⟨["false"], none, none, []⟩ ⟨1, .ok 2, true, [], true, ["noise\n"]⟩ = none
    ∧ check_and_convert_stream_to_string
        (procStderr ⟨["false"], none, none, []⟩ ⟨1, .ok 2, true, [], true, ["noise\n"]⟩) = ""
    ∧ (invoke_subprocess_with_loading_pattern ⟨["false"], none, none, []⟩
        default_loading_pattern
        ⟨.ok ⟨1, .ok 2, true, [], true, ["noise\n"]⟩, 20⟩).result
        = .error (loadingPatternErrorMessage (nonZeroExitMessage ["false"] 2 ""))) :=
  ⟨by decide,
   C10_stderr_text_requires_pipe ⟨["false"], none, none, []⟩ default_loading_pattern
     ⟨1, .ok 2, true, [], true, ["noise\n"]⟩ 20 2 (by decide) rfl (by decide)⟩

end SubprocessUtils
